import Mathlib

/-!
Verification of the geometric utility functions of the earthquakes
repository (file `utilities/utils.py`): the haversine great-circle
distance, the linear (chord) distance through a sphere, and the
degree/radian helper functions.  Python floats are modelled by real
numbers; Python exceptions (`ZeroDivisionError`, `ValueError`,
`NameError`) are modelled by `Except String`.
-/

open Real

/-- Semantics of `math.radians`: converts an angle in degrees to radians. -/
noncomputable def radians (deg : ℝ) : ℝ := deg * π / 180

/-- Names bound at module level in `utilities/utils.py`: the imports
`from typing import List, Tuple, Sequence, Optional, Dict`, the imports
of `unittest` and of `pandas` (as `pd`),
`from math import radians, cos, sin, asin, sqrt`, and the five functions
and one class defined in the module.  Note that `pi` is not among the
names imported from `math` at module level (the `from math import cos,
pi, sqrt` inside `linear_dist_sphere` is local to that function body). -/
def utilsModuleGlobals : List String :=
  ["List", "Tuple", "Sequence", "Optional", "Dict", "unittest", "pd",
   "radians", "cos", "sin", "asin", "sqrt",
   "hello", "rad_2_deg", "deg_2_rad", "linear_dist_sphere", "pd_display",
   "haversine", "UtilTests"]

/-- Embedding of `rad_2_deg`.  Its body is `return rad * 180 / pi`; the
name `pi` must be resolvable in the enclosing (module) scope for the
body to evaluate, otherwise Python raises a `NameError` at call time. -/
noncomputable def rad_2_deg (rad : ℝ) : Except String ℝ :=
  if "pi" ∈ utilsModuleGlobals then Except.ok (rad * 180 / π)
  else Except.error "NameError: name pi is not defined"

/-- Embedding of `deg_2_rad`.  Its body is `return deg * pi / 180`; as in
`rad_2_deg`, the name `pi` must be bound in the module scope. -/
noncomputable def deg_2_rad (deg : ℝ) : Except String ℝ :=
  if "pi" ∈ utilsModuleGlobals then Except.ok (deg * π / 180)
  else Except.error "NameError: name pi is not defined"

/-- The central angle computed inside `linear_dist_sphere` (lines 33-34):
`circumferance = 2 * pi * radius; theta_rad = (surf_dist / circumferance)
* (2 * pi)`. -/
noncomputable def theta_rad (radius surf_dist : ℝ) : ℝ :=
  let circumferance := 2 * π * radius
  (surf_dist / circumferance) * (2 * π)

/-- Embedding of `linear_dist_sphere`: the straight-line distance through
a sphere between two points at depths `depth_a`, `depth_b` beneath the
surface, whose epicenters are `surf_dist` apart along the surface. -/
noncomputable def linear_dist_sphere
    (radius surf_dist depth_a depth_b : ℝ) : ℝ :=
  let a := radius - depth_a
  let b := radius - depth_b
  Real.sqrt (a ^ 2 + b ^ 2 - 2 * a * b * Real.cos (theta_rad radius surf_dist))

/-- Written from the spec of `linear_dist_sphere`: central angle
`theta = surf_dist / radius`, radial distances `a = radius - depth_a`,
`b = radius - depth_b`, law of cosines
`c = sqrt(a^2 + b^2 - 2*a*b*cos(theta))`. -/
noncomputable def linear_dist_sphereSpec
    (radius surf_dist depth_a depth_b : ℝ) : ℝ :=
  let theta := surf_dist / radius
  let a := radius - depth_a
  let b := radius - depth_b
  Real.sqrt (a ^ 2 + b ^ 2 - 2 * a * b * Real.cos theta)

/-- Embedding of `linear_dist_sphere` that also models the Python error
behaviour: float division by zero (`surf_dist / circumferance` when
`circumferance` is `0`, i.e. when `radius = 0`) raises
`ZeroDivisionError`, and `math.sqrt` of a negative argument raises
`ValueError`.  No other statement of the function can raise. -/
noncomputable def linear_dist_sphereRun
    (radius surf_dist depth_a depth_b : ℝ) : Except String ℝ :=
  if 2 * π * radius = 0 then
    Except.error "ZeroDivisionError: float division by zero"
  else
    let a := radius - depth_a
    let b := radius - depth_b
    let arg := a ^ 2 + b ^ 2 - 2 * a * b * Real.cos (theta_rad radius surf_dist)
    if arg < 0 then Except.error "ValueError: math domain error"
    else Except.ok (Real.sqrt arg)

/-- Embedding of `haversine`: great-circle distance in kilometers between
two points given by longitude/latitude in degrees, on a sphere of radius
`RADIUS_EARTH_KM = 6367`. -/
noncomputable def haversine (long0 lat0 long1 lat1 : ℝ) : ℝ :=
  let RADIUS_EARTH_KM : ℝ := 6367
  let rlong0 := radians long0
  let rlat0 := radians lat0
  let rlong1 := radians long1
  let rlat1 := radians lat1
  let dlong := rlong1 - rlong0
  let dlat := rlat1 - rlat0
  let a := Real.sin (dlat / 2) ^ 2 +
    Real.cos rlat0 * Real.cos rlat1 * Real.sin (dlong / 2) ^ 2
  let c := 2 * Real.arcsin (Real.sqrt a)
  RADIUS_EARTH_KM * c

/-- Written from the spec of `haversine`: convert all four inputs from
degrees to radians; `dlat = lat1 - lat0`, `dlong = long1 - long0`;
`a = sin(dlat/2)^2 + cos(lat0)*cos(lat1)*sin(dlong/2)^2`; central angle
`c = 2 * asin(sqrt(a))`; result `6367 * c`. -/
noncomputable def haversineSpec (long0 lat0 long1 lat1 : ℝ) : ℝ :=
  let dlat := radians lat1 - radians lat0
  let dlong := radians long1 - radians long0
  let a := Real.sin (dlat / 2) ^ 2 +
    Real.cos (radians lat0) * Real.cos (radians lat1) * Real.sin (dlong / 2) ^ 2
  let c := 2 * Real.arcsin (Real.sqrt a)
  6367 * c

/-- Helper: the circumference factor in `theta_rad` cancels, leaving
`surf_dist / radius`, whenever `radius` is nonzero. -/
theorem theta_rad_eq_div (radius surf_dist : ℝ) (h : radius ≠ 0) :
    theta_rad radius surf_dist = surf_dist / radius := by
  simp only [theta_rad]
  have hπ : (π : ℝ) ≠ 0 := Real.pi_ne_zero
  field_simp
  ring

/-- Claim C1: for all four inputs in degrees, `haversine` converts them to
radians, forms `dlat = lat1 - lat0`, `dlong = long1 - long0`,
`a = sin(dlat/2)^2 + cos(lat0)*cos(lat1)*sin(dlong/2)^2`,
`c = 2*asin(sqrt(a))`, and returns `6367 * c`. -/
theorem haversine_matches_spec (long0 lat0 long1 lat1 : ℝ) :
    haversine long0 lat0 long1 lat1 = haversineSpec long0 lat0 long1 lat1 :=
  rfl

/-- Claim C4: `haversine` of a point with itself is `0`. -/
theorem haversine_self (long lat : ℝ) : haversine long lat long lat = 0 := by
  simp [haversine]

/-- Claim C5: `haversine` is symmetric in its two points. -/
theorem haversine_symm (long0 lat0 long1 lat1 : ℝ) :
    haversine long0 lat0 long1 lat1 = haversine long1 lat1 long0 lat0 := by
  have hsq : ∀ x y : ℝ, Real.sin ((x - y) / 2) ^ 2 = Real.sin ((y - x) / 2) ^ 2 := by
    intro x y
    rw [show (x - y) / 2 = -((y - x) / 2) by ring, Real.sin_neg]
    ring
  simp only [haversine]
  rw [hsq (radians lat1) (radians lat0), hsq (radians long1) (radians long0),
    mul_comm (Real.cos (radians lat0)) (Real.cos (radians lat1))]

/-- Claim C9: `linear_dist_sphere` is symmetric in the two depths. -/
theorem linear_dist_sphere_depth_symm (radius surf_dist depth_a depth_b : ℝ) :
    linear_dist_sphere radius surf_dist depth_a depth_b
      = linear_dist_sphere radius surf_dist depth_b depth_a := by
  simp only [linear_dist_sphere]
  congr 1
  ring

/-- Claim C2: for nonzero radius, `linear_dist_sphere` computes the
central angle `theta = surf_dist / radius`, radial distances
`a = radius - depth_a`, `b = radius - depth_b`, and returns the law of
cosines chord `sqrt(a^2 + b^2 - 2*a*b*cos(theta))`. -/
theorem linear_dist_sphere_matches_spec
    (radius surf_dist depth_a depth_b : ℝ) (h : radius ≠ 0) :
    linear_dist_sphere radius surf_dist depth_a depth_b
      = linear_dist_sphereSpec radius surf_dist depth_a depth_b := by
  simp only [linear_dist_sphere, linear_dist_sphereSpec,
    theta_rad_eq_div radius surf_dist h]

/-- Witness for claim C2 at the test input radius 1000, surface distance
10, depths 500 and 500. -/
theorem linear_dist_sphere_matches_spec_witness :
    linear_dist_sphere 1000 10 500 500 = linear_dist_sphereSpec 1000 10 500 500 :=
  linear_dist_sphere_matches_spec 1000 10 500 500 (by norm_num)

/-- Claim C6: for positive radius, the central angle
`(surf_dist / (2*pi*radius)) * (2*pi)` computed by `linear_dist_sphere`
equals `surf_dist / radius`: the circumference factor cancels. -/
theorem theta_rad_circumference_cancels (radius surf_dist : ℝ)
    (h : 0 < radius) :
    theta_rad radius surf_dist = surf_dist / radius :=
  theta_rad_eq_div radius surf_dist h.ne'

/-- Witness for claim C6 at radius 2, surface distance 6. -/
theorem theta_rad_circumference_cancels_witness :
    theta_rad 2 6 = 6 / 2 :=
  theta_rad_circumference_cancels 2 6 (by norm_num)

/-- Claim C10: the value of `haversine` is nonnegative and at most
`6367 * pi`: `sqrt a` is nonnegative, so `arcsin` of it lies in
`[0, pi/2]`, the central angle lies in `[0, pi]`, and the product with
the radius 6367 lies in `[0, 6367*pi]`. -/
theorem haversine_bounds (long0 lat0 long1 lat1 : ℝ) :
    0 ≤ haversine long0 lat0 long1 lat1 ∧
      haversine long0 lat0 long1 lat1 ≤ 6367 * π := by
  have key : ∀ x : ℝ,
      0 ≤ 6367 * (2 * Real.arcsin (Real.sqrt x)) ∧
        6367 * (2 * Real.arcsin (Real.sqrt x)) ≤ 6367 * π := by
    intro x
    have h1 : 0 ≤ Real.arcsin (Real.sqrt x) :=
      Real.arcsin_nonneg.mpr (Real.sqrt_nonneg x)
    have h2 : Real.arcsin (Real.sqrt x) ≤ π / 2 :=
      Real.arcsin_le_pi_div_two (Real.sqrt x)
    constructor <;> linarith
  simp only [haversine]
  exact key _

/-- Counterexample to claim C3: at radius 10, surface distance 10 and both
depths 0, `linear_dist_sphere` does not return exactly the surface
distance.  The central angle is 1 radian and the chord is
`sqrt(200 - 200*cos 1) = 20*sin(1/2) < 10` because `cos 1 > 1/2`. -/
theorem linear_dist_sphere_surface_not_exact :
    linear_dist_sphere 10 10 0 0 ≠ 10 := by
  have hθ : theta_rad 10 10 = 1 := by
    rw [theta_rad_eq_div 10 10 (by norm_num)]
    norm_num
  have hcos : (1 : ℝ) / 2 < Real.cos 1 := by
    have h3 : (3 : ℝ) < π := Real.pi_gt_three
    have h1 : Real.cos (π / 3) < Real.cos 1 :=
      Real.cos_lt_cos_of_nonneg_of_le_pi (by norm_num)
        (by linarith [Real.pi_pos]) (by linarith)
    rwa [Real.cos_pi_div_three] at h1
  have hlt : linear_dist_sphere 10 10 0 0 < 10 := by
    simp only [linear_dist_sphere, hθ, sub_zero]
    rw [Real.sqrt_lt' (by norm_num : (0:ℝ) < 10)]
    nlinarith
  exact ne_of_lt hlt

/-- Claim C3 amended: with both depths 0, positive radius and
`0 ≤ surf_dist ≤ 2*pi*radius`, `linear_dist_sphere` returns
`2*radius*sin(surf_dist/(2*radius))`, which is at most `surf_dist`
(approximately equal when `surf_dist` is small relative to radius, but
not exactly equal in general). -/
theorem linear_dist_sphere_surface_chord (radius surf_dist : ℝ)
    (hr : 0 < radius) (hs : 0 ≤ surf_dist) (hs2 : surf_dist ≤ 2 * π * radius) :
    linear_dist_sphere radius surf_dist 0 0
        = 2 * radius * Real.sin (surf_dist / (2 * radius)) ∧
      linear_dist_sphere radius surf_dist 0 0 ≤ surf_dist := by
  set t := surf_dist / (2 * radius) with ht
  have ht0 : 0 ≤ t := div_nonneg hs (by linarith)
  have htπ : t ≤ π := by
    rw [ht, div_le_iff₀ (by linarith : (0:ℝ) < 2 * radius)]
    linarith
  have hsin : 0 ≤ Real.sin t := Real.sin_nonneg_of_nonneg_of_le_pi ht0 htπ
  have hθ : theta_rad radius surf_dist = 2 * t := by
    rw [theta_rad_eq_div radius surf_dist hr.ne', ht]
    field_simp
    ring
  have key : (radius - 0) ^ 2 + (radius - 0) ^ 2
      - 2 * (radius - 0) * (radius - 0) * Real.cos (theta_rad radius surf_dist)
      = (2 * radius * Real.sin t) ^ 2 := by
    rw [hθ]
    have h2t := Real.cos_two_mul t
    have hpyt := Real.sin_sq_add_cos_sq t
    nlinarith [h2t, hpyt]
  have heq : linear_dist_sphere radius surf_dist 0 0
      = 2 * radius * Real.sin t := by
    simp only [linear_dist_sphere]
    rw [key, Real.sqrt_sq (by positivity)]
  refine ⟨heq, ?_⟩
  rw [heq]
  have hle : Real.sin t ≤ t := Real.sin_le ht0
  have : 2 * radius * t = surf_dist := by
    rw [ht]
    field_simp
  nlinarith

/-- Witness for the amended claim C3 at radius 10, surface distance 10. -/
theorem linear_dist_sphere_surface_chord_witness :
    linear_dist_sphere 10 10 0 0 = 2 * 10 * Real.sin (10 / (2 * 10)) ∧
      linear_dist_sphere 10 10 0 0 ≤ 10 :=
  linear_dist_sphere_surface_chord 10 10 (by norm_num) (by norm_num)
    (by nlinarith [Real.pi_gt_three])

/-- Counterexample to claim C7: at radius 0 with depth 1 (a depth
exceeding the radius), `linear_dist_sphere` does not return a numeric
result: the division `surf_dist / circumferance` raises
`ZeroDivisionError` because the circumference `2*pi*0` is `0`. -/
theorem linear_dist_sphere_zero_radius_raises :
    (0 : ℝ) < 1 ∧ linear_dist_sphereRun 0 1 1 0
      = Except.error "ZeroDivisionError: float division by zero" := by
  refine ⟨by norm_num, ?_⟩
  simp only [linear_dist_sphereRun, mul_zero, if_pos]

/-- Claim C7 amended: for nonzero radius, `linear_dist_sphere` does not
validate depths against the radius: a depth exceeding the radius yields a
negative radial distance `radius - depth`, which is passed through
arithmetically and the function returns a numeric result (no error). -/
theorem linear_dist_sphere_depth_passthrough
    (radius surf_dist depth_a depth_b : ℝ) (hr : radius ≠ 0)
    (hd : radius < depth_a ∨ radius < depth_b) :
    (radius < depth_a → radius - depth_a < 0) ∧
      (radius < depth_b → radius - depth_b < 0) ∧
      linear_dist_sphereRun radius surf_dist depth_a depth_b
        = Except.ok (linear_dist_sphere radius surf_dist depth_a depth_b) := by
  refine ⟨fun h => by linarith, fun h => by linarith, ?_⟩
  have hc : 2 * π * radius ≠ 0 := by
    have hπ : (π : ℝ) ≠ 0 := Real.pi_ne_zero
    positivity
  have harg : 0 ≤ (radius - depth_a) ^ 2 + (radius - depth_b) ^ 2
      - 2 * (radius - depth_a) * (radius - depth_b)
        * Real.cos (theta_rad radius surf_dist) := by
    set a := radius - depth_a
    set b := radius - depth_b
    set c := Real.cos (theta_rad radius surf_dist)
    have h1 : -1 ≤ c := Real.neg_one_le_cos _
    have h2 : c ≤ 1 := Real.cos_le_one _
    nlinarith [sq_nonneg (a - b), sq_nonneg (a + b),
      mul_nonneg (by linarith : (0:ℝ) ≤ 1 + c) (sq_nonneg (a - b)),
      mul_nonneg (by linarith : (0:ℝ) ≤ 1 - c) (sq_nonneg (a + b))]
  simp only [linear_dist_sphereRun, linear_dist_sphere, if_neg hc,
    if_neg (not_lt.mpr harg)]

/-- Witness for the amended claim C7 at radius 1, surface distance 0,
depths 2 and 0: the first depth exceeds the radius, its radial distance
is negative, and the function still returns a numeric result. -/
theorem linear_dist_sphere_depth_passthrough_witness :
    ((1 : ℝ) < 2 → (1 : ℝ) - 2 < 0) ∧
      ((1 : ℝ) < 0 → (1 : ℝ) - 0 < 0) ∧
      linear_dist_sphereRun 1 0 2 0
        = Except.ok (linear_dist_sphere 1 0 2 0) :=
  linear_dist_sphere_depth_passthrough 1 0 2 0 (by norm_num)
    (Or.inl (by norm_num))

/-- Claim C8: every call of `rad_2_deg` or `deg_2_rad` raises a
`NameError`: both bodies reference the name `pi`, but the module-level
imports from `math` bring in only `radians`, `cos`, `sin`, `asin` and
`sqrt`, so `pi` is not bound at the point of use. -/
theorem rad_2_deg_and_deg_2_rad_raise (rad deg : ℝ) :
    rad_2_deg rad = Except.error "NameError: name pi is not defined" ∧
      deg_2_rad deg = Except.error "NameError: name pi is not defined" := by
  have h : "pi" ∉ utilsModuleGlobals := by decide
  rw [rad_2_deg, deg_2_rad, if_neg h, if_neg h]
  exact ⟨rfl, rfl⟩
